import Mathlib

/-!
Verification development for the CytoPipe aggregation core
(src/scripts/aggregate_cells.py and src/cytosnake/utils/cyto_paths.py).

Shallow embedding: tables are lists of rows, the filesystem is an explicit
environment, fallible steps return Except, and the side effects of the job
(capability invocation and the two file writes) are recorded in an event log.
-/

set_option autoImplicit false

namespace CytoPipe

/-! ## Python string primitives used by the script -/

/-- Split a character list at the LAST occurrence of the separator `sep`:
returns `some (before, after)` when `sep` occurs, `none` otherwise.
Structural-recursion model of the scan Python performs for
`str.rsplit(sep, 1)` and `os.path.basename`. -/
def splitLastChar (sep : Char) : List Char → Option (List Char × List Char)
  | [] => none
  | c :: rest =>
    match splitLastChar sep rest with
    | some (pre, post) => some (c :: pre, post)
    | none => if c = sep then some ([], rest) else none

/-- `os.path.basename`: everything after the last `/` (the whole string when
there is no `/`). -/
def basename (s : String) : String :=
  match splitLastChar '/' s.toList with
  | some (_, post) => String.mk post
  | none => s

/-- Python `s.rsplit(".", 1)` (aggregate_cells.py line 50): a LIST holding
the part before the last dot and the part after it, or the one-element list
`[s]` when `s` has no dot.  Note the script binds this list itself — not its
first element — to the variable `plate`. -/
def rsplitDot1 (s : String) : List String :=
  match splitLastChar '.' s.toList with
  | some (pre, post) => [String.mk pre, String.mk post]
  | none => [s]

/-- `os.path.join` for two components (posix semantics): an absolute second
component replaces the first; otherwise the two are joined, inserting `/`
unless the first already ends with one (or is empty). -/
def pyPathJoin (a b : String) : String :=
  match b.toList with
  | '/' :: _ => b
  | _ =>
    match a.toList.reverse with
    | [] => b
    | '/' :: _ => a ++ b
    | _ => a ++ "/" ++ b

example : basename "data/PlateA.sqlite" = "PlateA.sqlite" := by decide
example : basename "PlateA.sqlite" = "PlateA.sqlite" := by decide
example : rsplitDot1 "PlateA.sqlite" = ["PlateA", "sqlite"] := by decide
example : rsplitDot1 "a.b.c" = ["a.b", "c"] := by decide
example : rsplitDot1 "abc" = ["abc"] := by decide
example : pyPathJoin (pyPathJoin "meta" "platemap") "MapX.csv" =
    "meta/platemap/MapX.csv" := by decide

/-! ## YAML configuration (aggregate_cells.py lines 42-47)

The script opens the config file, parses it with yaml.safe_load, and indexes
the parsed value with ["single_cell_config"]["params"].  A missing file raises
FileNotFoundError, a malformed file raises a YAML parse error, and an absent
section raises KeyError (or TypeError when the parsed value is not a mapping);
the spec groups all three as configuration-load errors. -/

/-- Parsed YAML value. -/
inductive Yaml where
  | str (s : String)
  | num (n : Int)
  | bool (b : Bool)
  | null
  | seq (xs : List Yaml)
  | map (kvs : List (String × Yaml))

/-- Python dict indexing on a parsed YAML value: `none` models the KeyError
(absent key) and TypeError (value not a mapping) outcomes. -/
def Yaml.lookup : Yaml → String → Option Yaml
  | .map kvs, k => (kvs.find? (fun kv => kv.1 == k)).map (fun kv => kv.2)
  | _, _ => none

/-- State of the configuration file on disk, as the job can observe it. -/
inductive ConfigFileState where
  | missing
  | notYaml
  | yaml (v : Yaml)

/-- Configuration-load failures (the ConfigLoadError class of the spec). -/
inductive ConfigLoadError where
  | fileNotFound
  | yamlParseError
  | missingSection
deriving DecidableEq

/-- Lines 42-47: open the config file, yaml.safe_load it, and take
["single_cell_config"]["params"]. -/
def loadAggregateConfigs : ConfigFileState → Except ConfigLoadError Yaml
  | .missing => .error .fileNotFound
  | .notYaml => .error .yamlParseError
  | .yaml v =>
    match v.lookup "single_cell_config" with
    | none => .error .missingSection
    | some sc =>
      match sc.lookup "params" with
      | none => .error .missingSection
      | some params => .ok params

/-- The single_cell_config.params section of the config file, when present. -/
def paramsSection : ConfigFileState → Option Yaml
  | .yaml v => (v.lookup "single_cell_config").bind (fun sc => sc.lookup "params")
  | _ => none

/-- The parameter keys the script reads out of the section when it constructs
the SingleCells capability object (lines 61-77). -/
def requiredParamKeys : List String :=
  ["strata", "image_cols", "aggregation_operation", "output_file",
   "merge_cols", "add_image_features", "image_feature_categories",
   "features", "load_image_data", "subsample_frac",
   "subsampling_random_state", "fields_of_view", "object_feature"]

/-- Look up each required key in the params section; the first absent key
raises a KeyError, modelled as the erroring key name. -/
def lookupAll (params : Yaml) : List String → Except String (List (String × Yaml))
  | [] => .ok []
  | k :: ks =>
    match params.lookup k with
    | none => .error k
    | some v =>
      match lookupAll params ks with
      | .error e => .error e
      | .ok rest => .ok ((k, v) :: rest)

/-! ## Tables (pandas DataFrames restricted to what the script uses) -/

/-- A dataframe: a header of column names plus rows of string cells, row cell
i belonging to column i. -/
structure Table where
  cols : List String
  rows : List (List String)
deriving DecidableEq

/-- The cell of `row` under column `c` of a table with header `cols`
(empty string when absent, as the claims never depend on that case). -/
def valueAt (cols : List String) (row : List String) (c : String) : String :=
  match cols.findIdx? (fun x => x == c) with
  | some i => row.getD i ""
  | none => ""

/-- pandas DataFrame.merge with left_on/right_on and the DEFAULT how="inner"
(line 84-86): the output keeps both key columns and holds one concatenated row
per matching pair, in left-row-major order; a missing key column is a
KeyError.  Suffixing of overlapping non-key column names is not modelled;
theorems that depend on the merged header assume disjoint headers. -/
def mergeInner (left right : Table) (leftKey rightKey : String) :
    Except String Table :=
  if left.cols.contains leftKey then
    if right.cols.contains rightKey then
      .ok { cols := left.cols ++ right.cols,
            rows := left.rows.flatMap (fun lr =>
              (right.rows.filter (fun rr =>
                valueAt left.cols lr leftKey == valueAt right.cols rr rightKey)).map
                (fun rr => lr ++ rr)) }
    else .error rightKey
  else .error leftKey

/-- pandas DataFrame.drop(labels, axis="columns") (line 86): removes the named
columns; any label not present in the header is a KeyError. -/
def dropColumns (t : Table) (ds : List String) : Except String Table :=
  if ds.all (fun d => t.cols.contains d) then
    .ok { cols := t.cols.filter (fun c => !(ds.contains c)),
          rows := t.rows.map (fun r =>
            ((t.cols.zip r).filter (fun cv => !(ds.contains cv.1))).map
              (fun cv => cv.2)) }
  else .error "KeyError"

/-- pandas DataFrame.to_csv(path, sep, index=False) (line 87): one header line
followed by one line per row, cells joined by the separator, no index
column. -/
def toCsv (t : Table) (sep : String) : List String :=
  String.intercalate sep t.cols :: t.rows.map (String.intercalate sep)

/-! ## Barcode lookup (aggregate_cells.py lines 50-54) -/

/-- One row of the barcode table read by pd.read_csv(barcode_path). -/
structure BarcodeRow where
  assayPlateBarcode : String
  plateMapName : String
deriving DecidableEq

/-- Line 50: plate = os.path.basename(sql_file).rsplit(".", 1).
The bound value is a LIST (usually [stem, extension]), because the script
does not index the rsplit result. -/
def plateKey (sqlFile : String) : List String :=
  rsplitDot1 (basename sqlFile)

/-- Lines 52-54 selection: barcode_platemap_df.query("Assay_Plate_Barcode ==
@plate").  In pandas query syntax, comparing a column to a list with == is
membership (isin), so the selected rows are those whose Assay_Plate_Barcode
is an element of the rsplit list. -/
def selectedBarcodeRows (tbl : List BarcodeRow) (sqlFile : String) :
    List BarcodeRow :=
  tbl.filter (fun r => (plateKey sqlFile).contains r.assayPlateBarcode)

/-- Plate identifier as the spec describes it (modelled from the spec, for
comparison with the code): the basename of the plate data path with its final
extension removed. -/
def specPlateIdentifier (sqlFile : String) : String :=
  match splitLastChar '.' (basename sqlFile).toList with
  | some (pre, _) => String.mk pre
  | none => basename sqlFile

/-- Barcode selection as the spec describes it (modelled from the spec, for
comparison with the code): exactly the rows whose Assay_Plate_Barcode equals
the derived plate identifier. -/
def specSelectedRows (tbl : List BarcodeRow) (sqlFile : String) :
    List BarcodeRow :=
  tbl.filter (fun r => r.assayPlateBarcode == specPlateIdentifier sqlFile)

/-! ## The aggregate job driver (aggregate_cells.py lines 10-92) -/

/-- Errors the job can abort with; none is caught inside the job, so the
error is what the worker process propagates to the pool. -/
inductive AggError where
  | configLoad (e : ConfigLoadError)
  | configKeyMissing (k : String)
  | indexError
  | missingFile (path : String)
  | mergeKeyError (k : String)
  | dropKeyError
  | capabilityError
deriving DecidableEq

/-- Observable side effects of one job, in program order: construction of the
SingleCells capability object with its configuration arguments, the
cell-count file write (line 87), and the aggregate-profile write performed by
the capability (lines 90-92). -/
inductive Event where
  | singleCellsInit (args : List (String × Yaml))
  | writeCellCount (path : String) (lines : List String)
  | writeAggregateProfile (path : String)

/-- Inputs of one job that live outside the argument list: the config file
state, the parsed barcode table, the platemap files present on disk (keyed by
full path, each a parsed table), the per-well cell-count table the external
capability returns for this plate, and whether the capability's
aggregate_profiles call succeeds. -/
structure Env where
  configFile : ConfigFileState
  barcodeTable : List BarcodeRow
  platemapFiles : String → Option Table
  cellCountResult : Table
  aggregateProfilesOk : Bool

/-- The aggregate job driver, aggregate_cells.py lines 10-92, with the same
argument list as the source function.  Returns the job outcome and the list
of events that happened before the job finished or aborted. -/
def aggregate (env : Env) (sqlFile metadataDir : String)
    (_barcodePath : String) (cellCountOut aggregateFileOut : String)
    (_config : String) : Except AggError Unit × List Event :=
  match loadAggregateConfigs env.configFile with
  | .error e => (.error (.configLoad e), [])
  | .ok aggregateConfigs =>
    match (selectedBarcodeRows env.barcodeTable sqlFile).head? with
    | none => (.error .indexError, [])
    | some row =>
      let platemapFile :=
        pyPathJoin (pyPathJoin metadataDir "platemap") (row.plateMapName ++ ".csv")
      match env.platemapFiles platemapFile with
      | none => (.error (.missingFile platemapFile), [])
      | some platemapDf =>
        match lookupAll aggregateConfigs requiredParamKeys with
        | .error k => (.error (.configKeyMissing k), [])
        | .ok args =>
          let ev0 := Event.singleCellsInit args
          match mergeInner env.cellCountResult platemapDf
              "Image_Metadata_Well" "well_position" with
          | .error k => (.error (.mergeKeyError k), [ev0])
          | .ok merged =>
            match dropColumns merged ["WellRow", "WellCol", "well_position"] with
            | .error _ => (.error .dropKeyError, [ev0])
            | .ok cellCountFinal =>
              let ev1 := Event.writeCellCount cellCountOut (toCsv cellCountFinal "\t")
              if env.aggregateProfilesOk then
                (.ok (), [ev0, ev1, Event.writeAggregateProfile aggregateFileOut])
              else
                (.error .capabilityError, [ev0, ev1])

/-! ## The parallel dispatcher (aggregate_cells.py lines 95-122) -/

/-- Lines 103-108: zip(sqlfiles, repeat(metadata), repeat(barcodes),
cell_count_out, aggregate_profile_out, repeat(config)).  The repeats are
infinite, so zip truncates to the shortest of the three finite lists; the
recursion below is exactly that truncating zip with the three shared paths
broadcast into every tuple. -/
def buildInputs (sqlfiles cellCountOuts aggregateProfileOuts : List String)
    (metadataDir barcodePath configPath : String) :
    List (String × String × String × String × String × String) :=
  match sqlfiles, cellCountOuts, aggregateProfileOuts with
  | s :: ss, c :: cs, a :: as_ =>
    (s, metadataDir, barcodePath, c, a, configPath) ::
      buildInputs ss cs as_ metadataDir barcodePath configPath
  | _, _, _ => []

/-- Lines 111-116: clamp the requested core count to the number of job
tuples; the Bool records whether the clamping warning was printed. -/
def effectiveNCores (nCores : Nat) (nInputs : Nat) : Nat × Bool :=
  if nCores > nInputs then (nInputs, true) else (nCores, false)

/-! ## cyto_paths.get_cytosnake_package_path (cyto_paths.py lines 66-87) -/

/-- A Python value as the truthiness test of the guard sees it: either a bool
(what calling Path.exists() would return) or a bound-method object (what the
attribute access Path.exists without parentheses yields). -/
inductive PyVal where
  | bool (b : Bool)
  | boundMethod
deriving DecidableEq

/-- Python truthiness: a bound-method object is always truthy. -/
def truthy : PyVal → Bool
  | .bool b => b
  | .boundMethod => true

/-- Filesystem state the function could in principle observe: whether the
.git folder next to the package directory exists. -/
structure GitFsState where
  gitExists : Bool
deriving DecidableEq

/-- The expression git_path.exists as written on line 84: an attribute
access, not a call, so it denotes the bound method object regardless of the
filesystem. -/
def existsAttribute (_fs : GitFsState) : PyVal :=
  PyVal.boundMethod

/-- pathlib parent: the path with its last component removed. -/
def parentDir (p : String) : String :=
  match splitLastChar '/' p.toList with
  | some (pre, _) => String.mk pre
  | none => p

/-- cyto_paths.py lines 66-87: project_path = parent of the package
directory; raise FileNotFoundError if `not git_path.exists` — testing the
truthiness of the method object itself — else return project_path. -/
def get_cytosnake_package_path (fs : GitFsState) (packageDir : String) :
    Except String String :=
  let project_path := parentDir packageDir
  if !(truthy (existsAttribute fs)) then
    .error "Unable to find cytosnake package path"
  else
    .ok project_path

/-! ## Concrete fixtures used by witnesses and counterexamples -/

/-- A params section holding every key the script reads (values irrelevant to
the claims, so null). -/
def sampleParams : Yaml :=
  Yaml.map (requiredParamKeys.map (fun k => (k, Yaml.null)))

/-- The argument list the capability constructor receives for
sampleParams. -/
def sampleArgs : List (String × Yaml) :=
  requiredParamKeys.map (fun k => (k, Yaml.null))

/-- A well-formed config file containing single_cell_config.params. -/
def sampleConfig : ConfigFileState :=
  .yaml (.map [("single_cell_config", .map [("params", sampleParams)])])

/-- A valid platemap table: well_position, the WellRow/WellCol decomposition,
and one metadata column. -/
def samplePlatemap : Table :=
  { cols := ["well_position", "WellRow", "WellCol", "treatment"],
    rows := [["A01", "A", "01", "drugX"], ["A02", "A", "02", "drugY"]] }

/-- A per-well cell-count table as the capability returns it. -/
def sampleCellCount : Table :=
  { cols := ["Image_Metadata_Well", "cell_count"],
    rows := [["A01", "100"], ["A02", "50"]] }

/-- Fully valid environment: barcode row PlateA -> MapX, MapX.csv present. -/
def happyEnv : Env :=
  { configFile := sampleConfig,
    barcodeTable := [⟨"PlateA", "MapX"⟩],
    platemapFiles := fun p =>
      if p == "meta/platemap/MapX.csv" then some samplePlatemap else none,
    cellCountResult := sampleCellCount,
    aggregateProfilesOk := true }

/-- Environment whose config file does not exist. -/
def missingCfgEnv : Env :=
  { configFile := .missing,
    barcodeTable := [⟨"PlateA", "MapX"⟩],
    platemapFiles := fun _ => none,
    cellCountResult := sampleCellCount,
    aggregateProfilesOk := true }

/-- Environment with an empty barcode table. -/
def emptyBarcodeEnv : Env :=
  { configFile := sampleConfig,
    barcodeTable := [],
    platemapFiles := fun _ => none,
    cellCountResult := sampleCellCount,
    aggregateProfilesOk := true }

/-- Environment whose barcode table has MapX for plate PlateA but whose
platemap directory is empty. -/
def noPlatemapEnv : Env :=
  { configFile := sampleConfig,
    barcodeTable := [⟨"PlateA", "MapX"⟩],
    platemapFiles := fun _ => none,
    cellCountResult := sampleCellCount,
    aggregateProfilesOk := true }

/-- Environment whose single barcode row carries the file EXTENSION
"sqlite" as its Assay_Plate_Barcode, with that row's platemap present. -/
def extBarcodeEnv : Env :=
  { configFile := sampleConfig,
    barcodeTable := [⟨"sqlite", "MapY"⟩],
    platemapFiles := fun p =>
      if p == "meta/platemap/MapY.csv" then some samplePlatemap else none,
    cellCountResult := sampleCellCount,
    aggregateProfilesOk := true }

/-- Environment where a row matching the extension precedes the row matching
the plate stem, and only the stem row's platemap MapX.csv exists on disk. -/
def shadowedBarcodeEnv : Env :=
  { configFile := sampleConfig,
    barcodeTable := [⟨"sqlite", "MapY"⟩, ⟨"PlateA", "MapX"⟩],
    platemapFiles := fun p =>
      if p == "meta/platemap/MapX.csv" then some samplePlatemap else none,
    cellCountResult := sampleCellCount,
    aggregateProfilesOk := true }

/-! ## Helper lemmas -/

/-- Summing a function that is 1 on every element counts the elements. -/
theorem sum_map_eq_length {α : Type} (l : List α) (f : α → Nat)
    (h : ∀ a ∈ l, f a = 1) : (l.map f).sum = l.length := by
  induction l with
  | nil => rfl
  | cons a l ih =>
    have ha : f a = 1 := h a (List.mem_cons_self a l)
    have hl : ∀ b ∈ l, f b = 1 := fun b hb => h b (List.mem_cons_of_mem a hb)
    simp [ha, ih hl]
    omega

/-- When both key columns exist, mergeInner succeeds and its output is the
matching-pairs table. -/
theorem mergeInner_eq_ok (left right : Table) (lk rk : String)
    (hl : left.cols.contains lk = true) (hr : right.cols.contains rk = true) :
    mergeInner left right lk rk =
      .ok { cols := left.cols ++ right.cols,
            rows := left.rows.flatMap (fun lr =>
              (right.rows.filter (fun rr =>
                valueAt left.cols lr lk == valueAt right.cols rr rk)).map
                (fun rr => lr ++ rr)) } := by
  unfold mergeInner
  rw [hl, hr]
  rfl

/-- A column listed in the drop set never survives dropColumns. -/
theorem dropColumns_not_mem {t t' : Table} {ds : List String}
    (h : dropColumns t ds = .ok t') {d : String} (hd : d ∈ ds) :
    d ∉ t'.cols := by
  unfold dropColumns at h
  split at h
  · cases h
    intro hmem
    have hpd := List.of_mem_filter hmem
    simp at hpd
    exact hpd hd
  · cases h

/-- dropColumns succeeds exactly when every dropped label is a column, and
then it filters the header and keeps one cell per surviving column. -/
theorem dropColumns_eq_ok (t : Table) (ds : List String)
    (h : ∀ d ∈ ds, d ∈ t.cols) :
    dropColumns t ds =
      .ok { cols := t.cols.filter (fun c => !(ds.contains c)),
            rows := t.rows.map (fun r =>
              ((t.cols.zip r).filter (fun cv => !(ds.contains cv.1))).map
                (fun cv => cv.2)) } := by
  unfold dropColumns
  have : ds.all (fun d => t.cols.contains d) = true := by
    rw [List.all_eq_true]
    intro d hd
    exact List.elem_iff.mpr (h d hd)
  rw [this]
  rfl

/-! ## Claim C4 -/

/-- C4: for the job tuples the dispatcher builds and a requested worker count
w, the effective worker count passed to the pool is min(w, number of jobs),
and the clamping warning is printed exactly when w exceeds the number of
jobs. -/
theorem c4_worker_count_clamped (w : Nat)
    (sqlfiles ccOuts aggOuts : List String) (md bc cfg : String) :
    (effectiveNCores w (buildInputs sqlfiles ccOuts aggOuts md bc cfg).length).1 =
      min w (buildInputs sqlfiles ccOuts aggOuts md bc cfg).length ∧
    ((effectiveNCores w (buildInputs sqlfiles ccOuts aggOuts md bc cfg).length).2 = true ↔
      w > (buildInputs sqlfiles ccOuts aggOuts md bc cfg).length) := by
  set n := (buildInputs sqlfiles ccOuts aggOuts md bc cfg).length
  unfold effectiveNCores
  by_cases h : w > n <;> simp [h] <;> omega

/-! ## Claim C9 -/

/-- C9: the job tuples are the truncating zip of the three per-plate lists
with the shared paths broadcast into every tuple, so their number is the
minimum of the three list lengths — surplus entries of a longer list are
dropped, not rejected. -/
theorem c9_inputs_truncate_to_shortest
    (sqlfiles ccOuts aggOuts : List String) (md bc cfg : String) :
    buildInputs sqlfiles ccOuts aggOuts md bc cfg =
      (sqlfiles.zip (ccOuts.zip aggOuts)).map
        (fun t => (t.1, md, bc, t.2.1, t.2.2, cfg)) ∧
    (buildInputs sqlfiles ccOuts aggOuts md bc cfg).length =
      min sqlfiles.length (min ccOuts.length aggOuts.length) := by
  have hzip : buildInputs sqlfiles ccOuts aggOuts md bc cfg =
      (sqlfiles.zip (ccOuts.zip aggOuts)).map
        (fun t => (t.1, md, bc, t.2.1, t.2.2, cfg)) := by
    induction sqlfiles generalizing ccOuts aggOuts with
    | nil => simp [buildInputs]
    | cons s ss ih =>
      cases ccOuts with
      | nil => simp [buildInputs]
      | cons c cs =>
        cases aggOuts with
        | nil => simp [buildInputs]
        | cons a as_ => simp [buildInputs, ih]
  refine ⟨hzip, ?_⟩
  rw [hzip]
  simp [List.length_zip]

/-! ## Claim C10 -/

/-- C10: get_cytosnake_package_path tests the truthiness of the exists
METHOD OBJECT (line 84 omits the call parentheses), so the FileNotFoundError
branch is unreachable and the function returns the parent of the package
directory for every filesystem state, whether or not .git exists. -/
theorem c10_package_path_guard_unreachable (fs : GitFsState) (packageDir : String) :
    get_cytosnake_package_path fs packageDir = .ok (parentDir packageDir) := rfl

/-! ## Claim C1 -/

/-- C1 counterexample: for plate data path PlateA.sqlite the spec-side
identifier is PlateA, yet on a barcode table whose only row carries the
barcode "sqlite" the script selects that row — line 50 binds the whole
rsplit list, and query list-equality is membership — while rows equal to the
identifier would be none. -/
theorem c1_counterexample :
    specPlateIdentifier "PlateA.sqlite" = "PlateA" ∧
    selectedBarcodeRows [⟨"sqlite", "MapY"⟩] "PlateA.sqlite" = [⟨"sqlite", "MapY"⟩] ∧
    specSelectedRows [⟨"sqlite", "MapY"⟩] "PlateA.sqlite" = [] ∧
    selectedBarcodeRows [⟨"sqlite", "MapY"⟩] "PlateA.sqlite" ≠
      specSelectedRows [⟨"sqlite", "MapY"⟩] "PlateA.sqlite" := by
  refine ⟨rfl, rfl, rfl, ?_⟩
  decide

/-- C1 amended: the lookup key is the whole two-element list produced by
rsplit of the basename at its final dot, and the barcode rows selected are
exactly those whose Assay_Plate_Barcode equals the stem OR equals the final
extension (pandas query treats == against a list as membership). -/
theorem c1_lookup_key_is_rsplit_list (tbl : List BarcodeRow)
    (sqlFile st ex : String)
    (h : rsplitDot1 (basename sqlFile) = [st, ex]) :
    selectedBarcodeRows tbl sqlFile =
      tbl.filter (fun r => r.assayPlateBarcode == st || r.assayPlateBarcode == ex) := by
  unfold selectedBarcodeRows plateKey
  rw [h]
  apply List.filter_congr
  intro r _
  cases h1 : r.assayPlateBarcode == st <;> cases h2 : r.assayPlateBarcode == ex <;>
    simp [List.contains, List.elem, h1, h2]

/-- C1 witness: the amended selection rule evaluated on PlateA.sqlite and a
table holding both a stem-matching and an extension-matching row. -/
theorem c1_lookup_key_witness :
    selectedBarcodeRows [⟨"PlateA", "MapX"⟩, ⟨"sqlite", "MapY"⟩] "PlateA.sqlite" =
      List.filter (fun r => r.assayPlateBarcode == "PlateA" || r.assayPlateBarcode == "sqlite")
        [⟨"PlateA", "MapX"⟩, ⟨"sqlite", "MapY"⟩] :=
  c1_lookup_key_is_rsplit_list [⟨"PlateA", "MapX"⟩, ⟨"sqlite", "MapY"⟩]
    "PlateA.sqlite" "PlateA" "sqlite" rfl

/-! ## Claim C2 -/

/-- C2 counterexample: one cell-count row for well A01 against a platemap
holding only well B01 — the merge of line 84 (pandas default how="inner")
produces an empty row set, so the cell-count row does not appear in the
merged output and the combine is not a left join. -/
theorem c2_counterexample :
    mergeInner ⟨["Image_Metadata_Well", "cell_count"], [["A01", "7"]]⟩
        ⟨["well_position", "WellRow", "WellCol"], [["B01", "B", "01"]]⟩
        "Image_Metadata_Well" "well_position" =
      .ok ⟨["Image_Metadata_Well", "cell_count", "well_position", "WellRow", "WellCol"], []⟩ ∧
    ([["A01", "7"]] : List (List String)).length = 1 := ⟨rfl, rfl⟩

/-- C2 amended: the per-well cell-count table is combined with the platemap
table by an INNER join on the well key — a row is in the merged output
exactly when it is a cell-count row concatenated with a platemap row that
agrees on the well position, so cell-count rows without a platemap match are
dropped. -/
theorem c2_merge_is_inner_join (cc pm : Table)
    (hl : cc.cols.contains "Image_Metadata_Well" = true)
    (hr : pm.cols.contains "well_position" = true) :
    ∃ m, mergeInner cc pm "Image_Metadata_Well" "well_position" = .ok m ∧
      ∀ row : List String, row ∈ m.rows ↔
        ∃ lr ∈ cc.rows, ∃ rr ∈ pm.rows,
          valueAt cc.cols lr "Image_Metadata_Well" =
            valueAt pm.cols rr "well_position" ∧ row = lr ++ rr := by
  refine ⟨_, mergeInner_eq_ok cc pm "Image_Metadata_Well" "well_position" hl hr, ?_⟩
  intro row
  simp only [List.mem_flatMap, List.mem_map, List.mem_filter, beq_iff_eq]
  constructor
  · rintro ⟨lr, hlr, rr, ⟨hrr, hkey⟩, hrow⟩
    exact ⟨lr, hlr, rr, hrr, hkey, hrow.symm⟩
  · rintro ⟨lr, hlr, rr, hrr, hkey, hrow⟩
    exact ⟨lr, hlr, rr, ⟨hrr, hkey⟩, hrow.symm⟩

/-- C2 witness: the inner-join characterization evaluated on the two-well
sample tables. -/
theorem c2_merge_is_inner_join_witness :
    ∃ m, mergeInner sampleCellCount samplePlatemap
        "Image_Metadata_Well" "well_position" = .ok m ∧
      ∀ row : List String, row ∈ m.rows ↔
        ∃ lr ∈ sampleCellCount.rows, ∃ rr ∈ samplePlatemap.rows,
          valueAt sampleCellCount.cols lr "Image_Metadata_Well" =
            valueAt samplePlatemap.cols rr "well_position" ∧ row = lr ++ rr :=
  c2_merge_is_inner_join sampleCellCount samplePlatemap rfl rfl

/-! ## Claim C8 -/

/-- C8: when every cell-count row matches exactly one platemap row, the
joined-and-dropped cell-count output holds exactly as many rows as the
capability's cell-count result. -/
theorem c8_row_count_preserved (cc pm : Table)
    (hl : cc.cols.contains "Image_Metadata_Well" = true)
    (hwp : pm.cols.contains "well_position" = true)
    (hWR : "WellRow" ∈ pm.cols) (hWC : "WellCol" ∈ pm.cols)
    (h1 : ∀ lr ∈ cc.rows,
      (pm.rows.filter (fun rr =>
        valueAt cc.cols lr "Image_Metadata_Well" ==
          valueAt pm.cols rr "well_position")).length = 1) :
    ∃ m t, mergeInner cc pm "Image_Metadata_Well" "well_position" = .ok m ∧
      dropColumns m ["WellRow", "WellCol", "well_position"] = .ok t ∧
      t.rows.length = cc.rows.length := by
  have hm := mergeInner_eq_ok cc pm "Image_Metadata_Well" "well_position" hl hwp
  refine ⟨_, _, hm, dropColumns_eq_ok _ _ ?_, ?_⟩
  · intro d hd
    have hwp' : "well_position" ∈ pm.cols := List.elem_iff.mp hwp
    simp only [List.mem_cons, List.not_mem_nil, or_false] at hd
    rcases hd with rfl | rfl | rfl
    · exact List.mem_append_right _ hWR
    · exact List.mem_append_right _ hWC
    · exact List.mem_append_right _ hwp'
  · show (List.map _ _).length = cc.rows.length
    rw [List.length_map, List.length_flatMap]
    apply sum_map_eq_length
    intro lr hlr
    simp only [Function.comp_apply, List.length_map]
    exact h1 lr hlr

/-- C8 witness: the row-count preservation evaluated on the two-well sample
plate, whose wells A01 and A02 each match exactly one platemap row. -/
theorem c8_row_count_preserved_witness :
    ∃ m t, mergeInner sampleCellCount samplePlatemap
        "Image_Metadata_Well" "well_position" = .ok m ∧
      dropColumns m ["WellRow", "WellCol", "well_position"] = .ok t ∧
      t.rows.length = sampleCellCount.rows.length :=
  c8_row_count_preserved sampleCellCount samplePlatemap rfl rfl
    (by decide) (by decide) (by decide)

/-! ## Claim C3 -/

/-- C3: any cell-count file the aggregate job writes is the tab-separated
serialization, header line first and no index column, of a table containing
none of the columns WellRow, WellCol, well_position — they are dropped right
after the join. -/
theorem c3_output_drops_well_columns (env : Env)
    (sqlFile mdDir bc ccOut aggOut cfg path : String) (lines : List String)
    (h : Event.writeCellCount path lines ∈
      (aggregate env sqlFile mdDir bc ccOut aggOut cfg).2) :
    ∃ t : Table, lines = toCsv t "\t" ∧
      "WellRow" ∉ t.cols ∧ "WellCol" ∉ t.cols ∧ "well_position" ∉ t.cols ∧
      lines.head? = some (String.intercalate "\t" t.cols) := by
  unfold aggregate at h
  rcases hc : loadAggregateConfigs env.configFile with e | cfgs
  · simp [hc] at h
  rcases hs : (selectedBarcodeRows env.barcodeTable sqlFile).head? with _ | row
  · simp [hc, hs] at h
  rcases hp : env.platemapFiles
      (pyPathJoin (pyPathJoin mdDir "platemap") (row.plateMapName ++ ".csv"))
    with _ | pmDf
  · simp [hc, hs, hp] at h
  rcases ha : lookupAll cfgs requiredParamKeys with k | args
  · simp [hc, hs, hp, ha] at h
  rcases hm : mergeInner env.cellCountResult pmDf
      "Image_Metadata_Well" "well_position" with k | merged
  · simp [hc, hs, hp, ha, hm] at h
  rcases hd : dropColumns merged ["WellRow", "WellCol", "well_position"]
    with _ | t
  · simp [hc, hs, hp, ha, hm, hd] at h
  by_cases hok : env.aggregateProfilesOk
  · simp [hc, hs, hp, ha, hm, hd, hok] at h
    refine ⟨t, h.2, ?_, ?_, ?_, ?_⟩
    · exact dropColumns_not_mem hd (by simp)
    · exact dropColumns_not_mem hd (by simp)
    · exact dropColumns_not_mem hd (by simp)
    · rw [h.2]; rfl
  · simp [hc, hs, hp, ha, hm, hd, hok] at h
    refine ⟨t, h.2, ?_, ?_, ?_, ?_⟩
    · exact dropColumns_not_mem hd (by simp)
    · exact dropColumns_not_mem hd (by simp)
    · exact dropColumns_not_mem hd (by simp)
    · rw [h.2]; rfl

/-- C3 witness: the happy-path run writes exactly the header and two data
lines, tab-separated, with the three platemap layout columns gone. -/
theorem c3_output_drops_well_columns_witness :
    ∃ t : Table,
      (["Image_Metadata_Well\tcell_count\ttreatment",
        "A01\t100\tdrugX", "A02\t50\tdrugY"] : List String) = toCsv t "\t" ∧
      "WellRow" ∉ t.cols ∧ "WellCol" ∉ t.cols ∧ "well_position" ∉ t.cols ∧
      (["Image_Metadata_Well\tcell_count\ttreatment",
        "A01\t100\tdrugX", "A02\t50\tdrugY"] : List String).head? =
        some (String.intercalate "\t" t.cols) :=
  c3_output_drops_well_columns happyEnv "PlateA.sqlite" "meta" "b.csv"
    "cc.tsv" "agg.gz" "cfg.yaml" "cc.tsv"
    ["Image_Metadata_Well\tcell_count\ttreatment", "A01\t100\tdrugX", "A02\t50\tdrugY"]
    (by exact List.Mem.tail _ (List.Mem.head _))

/-! ## Claim C5 -/

/-- C5: the config load fails exactly when the file is missing, is not valid
YAML, or lacks the single_cell_config.params section; a load error aborts
the job as a configuration-load error before any event; a successful load
returns exactly that section, and every capability construction the job
performs uses exactly the parameters looked up in that section. -/
theorem c5_config_load_errors (env : Env)
    (sqlFile mdDir bc ccOut aggOut cfg : String) :
    ((∃ e, loadAggregateConfigs env.configFile = .error e) ↔
      (env.configFile = .missing ∨ env.configFile = .notYaml ∨
        paramsSection env.configFile = none)) ∧
    (∀ e, loadAggregateConfigs env.configFile = .error e →
      aggregate env sqlFile mdDir bc ccOut aggOut cfg =
        (.error (.configLoad e), [])) ∧
    (∀ p, loadAggregateConfigs env.configFile = .ok p →
      paramsSection env.configFile = some p) ∧
    (∀ args, Event.singleCellsInit args ∈
        (aggregate env sqlFile mdDir bc ccOut aggOut cfg).2 →
      ∃ p, loadAggregateConfigs env.configFile = .ok p ∧
        lookupAll p requiredParamKeys = .ok args) := by
  refine ⟨?_, ?_, ?_, ?_⟩
  · cases env.configFile with
    | missing => simp [loadAggregateConfigs, paramsSection]
    | notYaml => simp [loadAggregateConfigs, paramsSection]
    | yaml v =>
      rcases hsc : v.lookup "single_cell_config" with _ | sc
      · simp [loadAggregateConfigs, paramsSection, hsc]
      · rcases hp : sc.lookup "params" with _ | p <;>
          simp [loadAggregateConfigs, paramsSection, hsc, hp]
  · intro e he
    unfold aggregate
    simp [he]
  · intro p hp
    rcases hcf : env.configFile with _ | _ | v
    · rw [hcf] at hp; simp [loadAggregateConfigs] at hp
    · rw [hcf] at hp; simp [loadAggregateConfigs] at hp
    · rw [hcf] at hp
      rcases hsc : v.lookup "single_cell_config" with _ | sc
      · simp [loadAggregateConfigs, hsc] at hp
      · rcases hq : sc.lookup "params" with _ | q
        · simp [loadAggregateConfigs, hsc, hq] at hp
        · simp [loadAggregateConfigs, hsc, hq] at hp
          simp [paramsSection, hsc, hq, hp]
  · intro args h
    unfold aggregate at h
    rcases hc : loadAggregateConfigs env.configFile with e | cfgs
    · simp [hc] at h
    rcases hs : (selectedBarcodeRows env.barcodeTable sqlFile).head? with _ | row
    · simp [hc, hs] at h
    rcases hpm : env.platemapFiles
        (pyPathJoin (pyPathJoin mdDir "platemap") (row.plateMapName ++ ".csv"))
      with _ | pmDf
    · simp [hc, hs, hpm] at h
    rcases ha : lookupAll cfgs requiredParamKeys with k | args0
    · simp [hc, hs, hpm, ha] at h
    rcases hm : mergeInner env.cellCountResult pmDf
        "Image_Metadata_Well" "well_position" with k | merged
    · simp [hc, hs, hpm, ha, hm] at h
      exact ⟨cfgs, rfl, by rw [h]; exact ha⟩
    rcases hd : dropColumns merged ["WellRow", "WellCol", "well_position"]
      with _ | t
    · simp [hc, hs, hpm, ha, hm, hd] at h
      exact ⟨cfgs, rfl, by rw [h]; exact ha⟩
    by_cases hok : env.aggregateProfilesOk
    · simp [hc, hs, hpm, ha, hm, hd, hok] at h
      exact ⟨cfgs, rfl, by rw [h]; exact ha⟩
    · simp [hc, hs, hpm, ha, hm, hd, hok] at h
      exact ⟨cfgs, rfl, by rw [h]; exact ha⟩

/-- C5 witness: a missing config file aborts the job with the
file-not-found configuration-load error and no side effect, and the sample
config loads into exactly the sample params section. -/
theorem c5_config_load_errors_witness :
    aggregate missingCfgEnv "PlateA.sqlite" "meta" "b.csv" "cc.tsv" "agg.gz" "cfg.yaml" =
      (.error (.configLoad .fileNotFound), []) ∧
    paramsSection sampleConfig = some sampleParams :=
  ⟨(c5_config_load_errors missingCfgEnv "PlateA.sqlite" "meta" "b.csv"
      "cc.tsv" "agg.gz" "cfg.yaml").2.1 .fileNotFound rfl,
   (c5_config_load_errors happyEnv "PlateA.sqlite" "meta" "b.csv"
      "cc.tsv" "agg.gz" "cfg.yaml").2.2.1 sampleParams rfl⟩

/-! ## Claim C6 -/

/-- C6 counterexample: with plate data PlateA.sqlite, zero barcode rows
match the derived identifier PlateA, yet against a table whose only row
carries the barcode "sqlite" the job does NOT fail with an IndexError — the
list-membership query selects that row and the run completes, performing all
three side effects. -/
theorem c6_counterexample :
    specSelectedRows extBarcodeEnv.barcodeTable "PlateA.sqlite" = [] ∧
    (aggregate extBarcodeEnv "PlateA.sqlite" "meta" "b.csv" "cc.tsv"
      "agg.gz" "cfg.yaml").1 = .ok () ∧
    (aggregate extBarcodeEnv "PlateA.sqlite" "meta" "b.csv" "cc.tsv"
      "agg.gz" "cfg.yaml").2.length = 3 :=
  ⟨rfl, rfl, rfl⟩

/-- C6 amended: when the query selection is empty — no barcode row equals
the stem OR the final extension of the basename — the job aborts with the
uncaught IndexError before any capability call or file write. -/
theorem c6_empty_selection_index_error (env : Env)
    (sqlFile mdDir bc ccOut aggOut cfg : String)
    (hcfg : ∃ p, loadAggregateConfigs env.configFile = .ok p)
    (hsel : selectedBarcodeRows env.barcodeTable sqlFile = []) :
    aggregate env sqlFile mdDir bc ccOut aggOut cfg =
      (.error .indexError, []) := by
  obtain ⟨p, hp⟩ := hcfg
  unfold aggregate
  simp [hp, hsel]

/-- C6 witness: the empty barcode table yields the IndexError abort with an
empty event log. -/
theorem c6_empty_selection_index_error_witness :
    aggregate emptyBarcodeEnv "PlateA.sqlite" "meta" "b.csv" "cc.tsv"
      "agg.gz" "cfg.yaml" = (.error .indexError, []) :=
  c6_empty_selection_index_error emptyBarcodeEnv "PlateA.sqlite" "meta"
    "b.csv" "cc.tsv" "agg.gz" "cfg.yaml" ⟨sampleParams, rfl⟩ rfl

/-! ## Claim C7 -/

/-- C7 counterexample: the first row matching the plate identifier PlateA
names platemap MapX and MapX.csv exists on disk, yet the job fails asking
for MapY.csv — it takes the first row of the membership selection (here the
extension-matching row), not the first row matching the identifier. -/
theorem c7_counterexample :
    (specSelectedRows shadowedBarcodeEnv.barcodeTable "PlateA.sqlite").head? =
      some ⟨"PlateA", "MapX"⟩ ∧
    shadowedBarcodeEnv.platemapFiles "meta/platemap/MapX.csv" =
      some samplePlatemap ∧
    (aggregate shadowedBarcodeEnv "PlateA.sqlite" "meta" "b.csv" "cc.tsv"
      "agg.gz" "cfg.yaml").1 =
      .error (.missingFile "meta/platemap/MapY.csv") :=
  ⟨rfl, rfl, rfl⟩

/-- C7 amended: the job takes the Plate_Map_Name of the FIRST ROW OF THE
QUERY SELECTION (first row whose barcode is the stem or the final
extension), builds metadata_dir/platemap/name.csv, and fails with the
missing-file error exactly when that file is absent; when it is present no
missing-file error can arise. -/
theorem c7_first_selected_platemap (env : Env)
    (sqlFile mdDir bc ccOut aggOut cfg : String)
    (p : Yaml) (hcfg : loadAggregateConfigs env.configFile = .ok p)
    (r : BarcodeRow)
    (hsel : (selectedBarcodeRows env.barcodeTable sqlFile).head? = some r) :
    (env.platemapFiles
        (pyPathJoin (pyPathJoin mdDir "platemap") (r.plateMapName ++ ".csv")) = none →
      aggregate env sqlFile mdDir bc ccOut aggOut cfg =
        (.error (.missingFile
          (pyPathJoin (pyPathJoin mdDir "platemap") (r.plateMapName ++ ".csv"))), [])) ∧
    (∀ q, (aggregate env sqlFile mdDir bc ccOut aggOut cfg).1 =
        .error (.missingFile q) →
      q = pyPathJoin (pyPathJoin mdDir "platemap") (r.plateMapName ++ ".csv") ∧
      env.platemapFiles q = none) := by
  constructor
  · intro habs
    unfold aggregate
    simp [hcfg, hsel, habs]
  · intro q hq
    unfold aggregate at hq
    simp only [hcfg, hsel] at hq
    rcases hp : env.platemapFiles
        (pyPathJoin (pyPathJoin mdDir "platemap") (r.plateMapName ++ ".csv"))
      with _ | pmDf
    · simp [hp] at hq
      refine ⟨hq.symm, ?_⟩
      rw [hq.symm]
      exact hp
    · rcases ha : lookupAll p requiredParamKeys with k | args
      · simp [hp, ha] at hq
      rcases hm : mergeInner env.cellCountResult pmDf
          "Image_Metadata_Well" "well_position" with k | merged
      · simp [hp, ha, hm] at hq
      rcases hd : dropColumns merged ["WellRow", "WellCol", "well_position"]
        with _ | t
      · simp [hp, ha, hm, hd] at hq
      by_cases hok : env.aggregateProfilesOk
      · simp [hp, ha, hm, hd, hok] at hq
      · simp [hp, ha, hm, hd, hok] at hq

/-- C7 witness: PlateA resolves to MapX, and with an empty platemap
directory the job aborts with the missing-file error naming
meta/platemap/MapX.csv. -/
theorem c7_first_selected_platemap_witness :
    aggregate noPlatemapEnv "PlateA.sqlite" "meta" "b.csv" "cc.tsv"
      "agg.gz" "cfg.yaml" =
      (.error (.missingFile "meta/platemap/MapX.csv"), []) :=
  (c7_first_selected_platemap noPlatemapEnv "PlateA.sqlite" "meta" "b.csv"
    "cc.tsv" "agg.gz" "cfg.yaml" sampleParams rfl ⟨"PlateA", "MapX"⟩ rfl).1 rfl

end CytoPipe
